import Mathlib

/-!
Verification of the folder repository of `paper-backend`
(`src/paper-backend/src/model/folder.rs`).

The repository is a thin data-access layer over a MongoDB collection of
`Folder` documents keyed by `_id`.  We embed the collection as a list of
documents and each repository operation as an explicit state-passing
function whose behaviour follows the single MongoDB driver call the Rust
implementation makes (`insert_one`, `find_one`, `find`, `update_one` with
a full-document `$set`, `delete_one`).  Backend connectivity failures are
outside the embedding; the only `PersistenceError` the model produces is
the duplicate-`_id` insert error.  Timestamps (`bson::DateTime::now()`)
and uuid generation (`uuid::Uuid::new_v4()`) are effects of external
crates: the embedding passes the clock readings explicitly and threads a
uuid-generator state whose successive draws are distinct.
-/

/-- `FolderType` from folder.rs: a closed enumeration of the two folder
kinds. -/
inductive FolderType where
  | SystemDefined
  | UserDefined
deriving DecidableEq, Repr

/-- The `Folder` domain entity from folder.rs.  `id` is serialized as
`_id`, the MongoDB primary key.  `bson::DateTime` is embedded as `Nat`
(milliseconds since the epoch). -/
structure Folder where
  id : String
  parent_id : Option String
  user_id : String
  created_at : Nat
  updated_at : Nat
  name : String
  description : Option String
  type : FolderType
deriving DecidableEq, Repr

/-- `CreateFolderRequest` from folder.rs (module `schema`). -/
structure CreateFolderRequest where
  parent_id : Option String
  name : String
  description : Option String
deriving DecidableEq, Repr

/-- The error side of `ServiceResult`.  The embedding distinguishes only
the duplicate-`_id` insert failure (MongoDB E11000); backend-connectivity
failures are outside the model. -/
inductive PersistenceError where
  | duplicateKey (id : String)
deriving DecidableEq, Repr

/-- `ServiceResult` from the error module: success or a persistence
error. -/
abbrev ServiceResult (α : Type) : Type := Except PersistenceError α

/-- The MongoDB folder collection, embedded as the list of its documents
in natural order. -/
abbrev FolderCollection : Type := List Folder

/-- A real MongoDB collection never holds two documents with the same
`_id` (it is the primary key); states reachable through the repository
preserve this. -/
def WellFormed (s : FolderCollection) : Prop :=
  (s.map Folder.id).Nodup

instance : DecidablePred WellFormed := fun s =>
  inferInstanceAs (Decidable ((s.map Folder.id).Nodup))

/-- MongoDB `find_one` with filter `{_id: id}`: the first document whose
`_id` equals `id`, if any. -/
def find_one (s : FolderCollection) (id : String) : Option Folder :=
  match s with
  | [] => none
  | g :: rest => if g.id = id then some g else find_one rest id

/-- MongoDB `update_one` with filter `{_id: f.id}` and a full-document
`$set`: replaces the first document whose `_id` equals `f.id` with `f`;
when none matches, the collection is unchanged (matched-zero is not an
error). -/
def set_one (s : FolderCollection) (f : Folder) : FolderCollection :=
  match s with
  | [] => []
  | g :: rest => if g.id = f.id then f :: rest else g :: set_one rest f

/-- MongoDB `delete_one` with filter `{_id: id}`: removes the first
document whose `_id` equals `id`; when none matches, the collection is
unchanged (delete-zero is not an error). -/
def delete_one (s : FolderCollection) (id : String) : FolderCollection :=
  match s with
  | [] => []
  | g :: rest => if g.id = id then rest else g :: delete_one rest id

/-- MongoDB `find` with filter `{user_id: u}`: all documents whose
`user_id` equals `u`, in collection order. -/
def find_all_by_user (s : FolderCollection) (u : String) : List Folder :=
  match s with
  | [] => []
  | g :: rest =>
    if g.user_id = u then g :: find_all_by_user rest u
    else find_all_by_user rest u

/-- `FolderRepository::create_folder` for `MongoClient`
(folder.rs:158-163): a single `insert_one`.  MongoDB rejects the insert
with a duplicate-key error when a document with the same `_id` already
exists; otherwise the document is appended.  On error the collection is
unchanged. -/
def create_folder (s : FolderCollection) (folder : Folder) :
    ServiceResult FolderCollection :=
  match find_one s folder.id with
  | some _ => .error (.duplicateKey folder.id)
  | none => .ok (s ++ [folder])

/-- `FolderRepository::get_folder_by_id` for `MongoClient`
(folder.rs:165-172): a single `find_one` on `{_id: id}`; absence is the
successful value `none`, not an error. -/
def get_folder_by_id (s : FolderCollection) (id : String) :
    ServiceResult (Option Folder) :=
  .ok (find_one s id)

/-- `FolderRepository::get_folders_by_user_id` for `MongoClient`
(folder.rs:174-182): a `find` on `{user_id: u}` collected into a
vector. -/
def get_folders_by_user_id (s : FolderCollection) (u : String) :
    ServiceResult (List Folder) :=
  .ok (find_all_by_user s u)

/-- `FolderRepository::update_folder` for `MongoClient`
(folder.rs:184-193): a single `update_one` on `{_id: folder.id}` whose
update is `$set` of the whole serialized document; returns the supplied
folder together with the new collection state.  Matched-zero is reported
as success. -/
def update_folder (s : FolderCollection) (folder : Folder) :
    ServiceResult (Folder × FolderCollection) :=
  .ok (folder, set_one s folder)

/-- `FolderRepository::delete_folder` for `MongoClient`
(folder.rs:195-201): a single `delete_one` on `{_id: id}`; deleted-zero
is reported as success. -/
def delete_folder (s : FolderCollection) (id : String) :
    ServiceResult FolderCollection :=
  .ok (delete_one s id)

/-- Modelled from the spec: `uuid::Uuid::new_v4()` (external crate, not
under src/) — per the spec it yields "a freshly generated unique `id`
each call (two calls for the same user_id never collide on `id`)".  The
entropy source is embedded as a generator state (`Nat`) advanced by each
draw; the drawn id renders the state, so draws from distinct states
never collide (drawn strings have pairwise distinct lengths). -/
def next_uuid (g : Nat) : String × Nat :=
  (String.mk (List.replicate (g + 1) 'f'), g + 1)

/-- `Folder::default_system_folder` (folder.rs:101-113), with the uuid
generator state and the two `bson::DateTime::now()` readings passed
explicitly; returns the folder and the advanced generator state. -/
def default_system_folder (g : Nat) (now_created now_updated : Nat)
    (user_id : String) : Folder × Nat :=
  let p := next_uuid g
  ({ id := p.1
     parent_id := none
     user_id := user_id
     created_at := now_created
     updated_at := now_updated
     name := "默认"
     description := some "System-defined folder."
     type := FolderType.SystemDefined }, p.2)

/-- `Folder::new_from_request` (folder.rs:115-127), with the uuid
generator state and the two `bson::DateTime::now()` readings passed
explicitly; returns the folder and the advanced generator state. -/
def new_from_request (g : Nat) (now_created now_updated : Nat)
    (user_id : String) (request : CreateFolderRequest) : Folder × Nat :=
  let p := next_uuid g
  ({ id := p.1
     parent_id := request.parent_id
     user_id := user_id
     created_at := now_created
     updated_at := now_updated
     name := request.name
     description := request.description
     type := FolderType.UserDefined }, p.2)

/-! ### Helper lemmas about the embedded MongoDB operations -/

theorem find_one_eq_none (s : FolderCollection) (i : String) :
    find_one s i = none ↔ ∀ g ∈ s, g.id ≠ i := by
  induction s with
  | nil => simp [find_one]
  | cons g rest ih =>
    by_cases hg : g.id = i
    · simp [find_one, hg]
    · simp [find_one, hg, ih]

theorem find_one_append_of_none (s t : FolderCollection) (i : String)
    (h : find_one s i = none) : find_one (s ++ t) i = find_one t i := by
  induction s with
  | nil => rfl
  | cons g rest ih =>
    by_cases hg : g.id = i
    · simp [find_one, hg] at h
    · simp only [find_one, hg, if_false] at h
      rw [List.cons_append]
      simp only [find_one, hg, if_false]
      exact ih h

theorem set_one_of_none (s : FolderCollection) (f : Folder)
    (h : find_one s f.id = none) : set_one s f = s := by
  induction s with
  | nil => rfl
  | cons g rest ih =>
    by_cases hg : g.id = f.id
    · simp [find_one, hg] at h
    · simp only [find_one, hg, if_false] at h
      simp only [set_one, hg, if_false]
      rw [ih h]

theorem find_one_set_one (s : FolderCollection) (f : Folder)
    (h : (find_one s f.id).isSome) :
    find_one (set_one s f) f.id = some f := by
  induction s with
  | nil => simp [find_one] at h
  | cons g rest ih =>
    by_cases hg : g.id = f.id
    · simp [set_one, hg, find_one]
    · simp only [find_one, hg, if_false] at h
      simp only [set_one, hg, if_false, find_one]
      exact ih h

theorem delete_one_of_none (s : FolderCollection) (i : String)
    (h : find_one s i = none) : delete_one s i = s := by
  induction s with
  | nil => rfl
  | cons g rest ih =>
    by_cases hg : g.id = i
    · simp [find_one, hg] at h
    · simp only [find_one, hg, if_false] at h
      simp only [delete_one, hg, if_false]
      rw [ih h]

theorem delete_one_length (s : FolderCollection) (i : String)
    (h : (find_one s i).isSome) :
    (delete_one s i).length + 1 = s.length := by
  induction s with
  | nil => simp [find_one] at h
  | cons g rest ih =>
    by_cases hg : g.id = i
    · simp [delete_one, hg]
    · simp only [find_one, hg, if_false] at h
      simp only [delete_one, hg, if_false, List.length_cons]
      rw [← ih h]

theorem find_one_delete_one (s : FolderCollection) (i : String)
    (hwf : WellFormed s) : find_one (delete_one s i) i = none := by
  induction s with
  | nil => rfl
  | cons g rest ih =>
    rw [WellFormed, List.map_cons, List.nodup_cons] at hwf
    by_cases hg : g.id = i
    · simp only [delete_one, hg, if_pos]
      rw [find_one_eq_none]
      intro x hx hxi
      exact hwf.1 (hg ▸ hxi ▸ List.mem_map_of_mem Folder.id hx)
    · simp only [delete_one, hg, if_false, find_one]
      exact ih hwf.2

theorem mem_find_all_by_user (s : FolderCollection) (u : String) (f : Folder) :
    f ∈ find_all_by_user s u ↔ f ∈ s ∧ f.user_id = u := by
  induction s with
  | nil => simp [find_all_by_user]
  | cons g rest ih =>
    by_cases hg : g.user_id = u
    · simp only [find_all_by_user, hg, if_pos, List.mem_cons]
      constructor
      · intro hf
        rcases hf with hf | hf
        · exact ⟨Or.inl hf, hf ▸ hg⟩
        · exact ⟨Or.inr (ih.mp hf).1, (ih.mp hf).2⟩
      · intro hf
        rcases hf.1 with hfg | hfr
        · exact Or.inl hfg
        · exact Or.inr (ih.mpr ⟨hfr, hf.2⟩)
    · simp only [find_all_by_user, hg, if_false, List.mem_cons, ih]
      constructor
      · intro hf
        exact ⟨Or.inr hf.1, hf.2⟩
      · intro hf
        rcases hf.1 with hfg | hfr
        · exact absurd (hfg ▸ hf.2) hg
        · exact ⟨hfr, hf.2⟩

/-! ### Concrete documents used by the witnesses -/

def sampleFolder : Folder :=
  { id := "id-1"
    parent_id := none
    user_id := "user-1"
    created_at := 10
    updated_at := 10
    name := "Notes"
    description := none
    type := FolderType.UserDefined }

def updatedFolder : Folder :=
  { id := "id-1"
    parent_id := some "id-0"
    user_id := "user-1"
    created_at := 10
    updated_at := 20
    name := "Notes v2"
    description := some "renamed"
    type := FolderType.UserDefined }

/-! ### The claims -/

/-- C1: inserting a folder `f` via `create_folder` into a state with no
document of id `f.id` succeeds, and `get_folder_by_id f.id` on the
resulting state returns `some f` — the very folder, all fields equal. -/
theorem create_then_get_roundtrip (s : FolderCollection) (f : Folder)
    (h : find_one s f.id = none) :
    ∃ s', create_folder s f = .ok s' ∧
      get_folder_by_id s' f.id = .ok (some f) := by
  refine ⟨s ++ [f], ?_, ?_⟩
  · unfold create_folder
    rw [h]
  · unfold get_folder_by_id
    rw [find_one_append_of_none s [f] f.id h]
    simp [find_one]

theorem create_then_get_roundtrip_witness :
    find_one [] sampleFolder.id = none ∧
    ∃ s', create_folder [] sampleFolder = .ok s' ∧
      get_folder_by_id s' sampleFolder.id = .ok (some sampleFolder) :=
  ⟨rfl, create_then_get_roundtrip [] sampleFolder rfl⟩

/-- C2: `update_folder f` on a state with no document of id `f.id`
succeeds returning `f` with the state unchanged, and `get_folder_by_id
f.id` afterward still returns the absent value. -/
theorem update_absent_noop (s : FolderCollection) (f : Folder)
    (h : find_one s f.id = none) :
    update_folder s f = .ok (f, s) ∧
    get_folder_by_id s f.id = .ok none := by
  constructor
  · unfold update_folder
    rw [set_one_of_none s f h]
  · unfold get_folder_by_id
    rw [h]

theorem update_absent_noop_witness :
    find_one [] updatedFolder.id = none ∧
    (update_folder [] updatedFolder = .ok (updatedFolder, []) ∧
      get_folder_by_id [] updatedFolder.id = .ok none) :=
  ⟨rfl, update_absent_noop [] updatedFolder rfl⟩

/-- C3: `update_folder f` on a state holding a document of id `f.id`
replaces the whole stored document with `f` and returns `f`;
`get_folder_by_id f.id` on the resulting state returns `some f`, every
field coming from `f` and none from the old document. -/
theorem update_present_replaces (s : FolderCollection) (f : Folder)
    (h : (find_one s f.id).isSome) :
    ∃ s', update_folder s f = .ok (f, s') ∧
      get_folder_by_id s' f.id = .ok (some f) := by
  refine ⟨set_one s f, rfl, ?_⟩
  unfold get_folder_by_id
  rw [find_one_set_one s f h]

theorem update_present_replaces_witness :
    (find_one [sampleFolder] updatedFolder.id).isSome = true ∧
    ∃ s', update_folder [sampleFolder] updatedFolder = .ok (updatedFolder, s') ∧
      get_folder_by_id s' updatedFolder.id = .ok (some updatedFolder) :=
  ⟨by decide, update_present_replaces [sampleFolder] updatedFolder (by decide)⟩

/-- C4: `get_folders_by_user_id u` succeeds with exactly the stored
folders whose `user_id` is `u` — membership in the result is equivalent
to being a stored folder of that user — and is the empty collection when
the user owns none. -/
theorem get_folders_by_user_exact (s : FolderCollection) (u : String) :
    ∃ l, get_folders_by_user_id s u = .ok l ∧
      (∀ f, f ∈ l ↔ f ∈ s ∧ f.user_id = u) ∧
      ((∀ f ∈ s, f.user_id ≠ u) → l = []) := by
  refine ⟨find_all_by_user s u, rfl, fun f => mem_find_all_by_user s u f, ?_⟩
  intro hnone
  cases hl : find_all_by_user s u with
  | nil => rfl
  | cons f rest =>
    have hf : f ∈ find_all_by_user s u := hl ▸ List.mem_cons_self f rest
    rw [mem_find_all_by_user] at hf
    exact absurd hf.2 (hnone f hf.1)

/-- C5: `delete_folder i` always succeeds; on a well-formed state the
resulting state has no document of id `i` (so `get_folder_by_id i`
returns the absent value), an unmatched delete leaves the state
unchanged, and a matched delete removes exactly one document. -/
theorem delete_then_get_absent (s : FolderCollection) (i : String)
    (hwf : WellFormed s) :
    ∃ s', delete_folder s i = .ok s' ∧
      get_folder_by_id s' i = .ok none ∧
      (find_one s i = none → s' = s) ∧
      ((find_one s i).isSome → s'.length + 1 = s.length) := by
  refine ⟨delete_one s i, rfl, ?_, delete_one_of_none s i, delete_one_length s i⟩
  unfold get_folder_by_id
  rw [find_one_delete_one s i hwf]

theorem delete_then_get_absent_witness :
    WellFormed [sampleFolder] ∧
    ∃ s', delete_folder [sampleFolder] "id-1" = .ok s' ∧
      get_folder_by_id s' "id-1" = .ok none ∧
      (find_one [sampleFolder] "id-1" = none → s' = [sampleFolder]) ∧
      ((find_one [sampleFolder] "id-1").isSome →
        s'.length + 1 = [sampleFolder].length) :=
  ⟨by decide, delete_then_get_absent [sampleFolder] "id-1" (by decide)⟩

/-- C6: on a state in which no document has id `i`, `get_folder_by_id i`
returns the successful absent value `.ok none`, never an error. -/
theorem get_absent_is_ok_none (s : FolderCollection) (i : String)
    (h : ∀ g ∈ s, g.id ≠ i) :
    get_folder_by_id s i = .ok none := by
  unfold get_folder_by_id
  rw [(find_one_eq_none s i).mpr h]

theorem get_absent_is_ok_none_witness :
    (∀ g ∈ [sampleFolder], g.id ≠ "missing") ∧
    get_folder_by_id [sampleFolder] "missing" = .ok none :=
  ⟨by decide, get_absent_is_ok_none [sampleFolder] "missing" (by decide)⟩

/-- C7: `default_system_folder` yields a folder of type `SystemDefined`
with no parent and the supplied owner, whose id is the fresh uuid drawn
from the generator; a second call threaded on the returned generator
state — any owner, any clock readings — yields a different id. -/
theorem default_system_folder_spec (g nc nu nc2 nu2 : Nat) (u u2 : String) :
    (default_system_folder g nc nu u).1.type = FolderType.SystemDefined ∧
    (default_system_folder g nc nu u).1.parent_id = none ∧
    (default_system_folder g nc nu u).1.user_id = u ∧
    (default_system_folder g nc nu u).1.id = (next_uuid g).1 ∧
    (default_system_folder g nc nu u).1.id ≠
      (default_system_folder (default_system_folder g nc nu u).2 nc2 nu2 u2).1.id := by
  refine ⟨rfl, rfl, rfl, rfl, ?_⟩
  intro h
  have hdata := congrArg String.data h
  simp only [default_system_folder, next_uuid] at hdata
  have hlen := congrArg List.length hdata
  simp only [List.length_replicate] at hlen
  omega

/-- C8: the user-facing creation path `new_from_request` always yields a
`UserDefined` folder — never `SystemDefined` — owned by the
authenticated caller, with `parent_id`, `name` and `description` taken
from the request. -/
theorem new_from_request_spec (g nc nu : Nat) (u : String)
    (req : CreateFolderRequest) :
    (new_from_request g nc nu u req).1.type = FolderType.UserDefined ∧
    (new_from_request g nc nu u req).1.user_id = u ∧
    (new_from_request g nc nu u req).1.parent_id = req.parent_id ∧
    (new_from_request g nc nu u req).1.name = req.name ∧
    (new_from_request g nc nu u req).1.description = req.description :=
  ⟨rfl, rfl, rfl, rfl, rfl⟩

/-- C9: `create_folder f` on a state already holding a document of id
`f.id` fails with a `PersistenceError` (the duplicate-key error), so no
new collection state is produced. -/
theorem create_duplicate_fails (s : FolderCollection) (f : Folder)
    (h : ∃ g ∈ s, g.id = f.id) :
    create_folder s f = .error (.duplicateKey f.id) := by
  unfold create_folder
  cases hf : find_one s f.id with
  | none =>
    rw [find_one_eq_none] at hf
    rcases h with ⟨g, hg, hgi⟩
    exact absurd hgi (hf g hg)
  | some g => rfl

theorem create_duplicate_fails_witness :
    (∃ g ∈ [sampleFolder], g.id = updatedFolder.id) ∧
    create_folder [sampleFolder] updatedFolder =
      .error (.duplicateKey updatedFolder.id) :=
  ⟨by decide, create_duplicate_fails [sampleFolder] updatedFolder (by decide)⟩

/-- C10: the default system folder's display fields are fixed constants,
independent of the owner and of every other input: name `"默认"` and
description `some "System-defined folder."`. -/
theorem default_system_folder_constants (g nc nu : Nat) (u : String) :
    (default_system_folder g nc nu u).1.name = "默认" ∧
    (default_system_folder g nc nu u).1.description =
      some "System-defined folder." :=
  ⟨rfl, rfl⟩
